import Mathlib

/-!
Verification of the Salpakan room/relay server (src/server.js).

The data model is a shallow embedding of the server's in-memory state:
JavaScript objects and Maps keyed by player id or room id become
association lists, WebSocket handles become a small `Conn` record, and
each message handler becomes a pure function from the pre-state to a
result record holding the new registry, the messages sent to the
requesting connection (`senderMsgs`), the messages delivered to room
occupants (`roomMsgs`, tagged with the recipient player id), any
scheduled deletion timers, and whether the lobby room-list broadcast was
triggered.  `Math.random` and `Date.now()` are external inputs and are
passed in as explicit parameters (`genId`, `now`).
-/

/-- Association-list lookup, mirroring JavaScript object / Map indexing. -/
def alookup {κ : Type} [DecidableEq κ] {α : Type} (k : κ) : List (κ × α) → Option α
  | [] => none
  | (k', v) :: rest => if k' = k then some v else alookup k rest

/-- Association-list insert/overwrite, mirroring `obj[k] = v` / `map.set(k, v)`. -/
def setKey {κ : Type} [DecidableEq κ] {α : Type} (k : κ) (v : α) : List (κ × α) → List (κ × α)
  | [] => [(k, v)]
  | (k', v') :: rest => if k' = k then (k, v) :: rest else (k', v') :: setKey k v rest

/-- Association-list removal, mirroring `delete obj[k]` / `map.delete(k)`. -/
def delKey {κ : Type} [DecidableEq κ] {α : Type} (k : κ) : List (κ × α) → List (κ × α)
  | [] => []
  | (k', v') :: rest => if k' = k then delKey k rest else (k', v') :: delKey k rest

/-- One WebSocket connection handle: the mutable identity fields the server
attaches to it (`ws.roomId`, `ws.playerId`), the heartbeat flag
(`ws.isAlive`) and whether `ws.readyState === WebSocket.OPEN`. -/
structure Conn where
  roomId : Option String := none
  playerId : Option Nat := none
  isAlive : Bool := true
  isOpen : Bool := true
deriving Repr, DecidableEq

/-- One room's state, mirroring the object built in `handleCreateRoom`. -/
structure Room where
  roomType : String
  players : List (Nat × Nat)
  clients : List (Nat × Conn)
  readyStates : List (Nat × Bool)
  setupComplete : List (Nat × Bool)
  playerNames : List (Nat × String)
  gameStarted : Bool
  lastActivity : Nat
  hostId : Nat
deriving Repr, DecidableEq

/-- The process-wide `rooms` map, room id to room. -/
abbrev Registry : Type := List (String × Room)

/-- Outbound message envelopes, one constructor per `type` string the server
sends, carrying the fields stamped by the corresponding handler.  Opaque
relayed payloads are kept as strings. -/
inductive OutMsg where
  | error (message : String)
  | roomCreated (roomId : String) (roomType : String) (playerId : Nat) (hostId : Nat)
      (players : List (Nat × Nat)) (readyStates : List (Nat × Bool))
      (playerNames : List (Nat × String))
  | roomJoined (roomId : String) (playerId : Nat) (hostId : Nat)
      (players : List (Nat × Nat)) (readyStates : List (Nat × Bool)) (roomType : String)
      (playerNames : List (Nat × String)) (gameStarted : Bool)
  | playerJoined (playerId : Nat) (hostId : Nat) (players : List (Nat × Nat))
      (readyStates : List (Nat × Bool)) (playerNames : List (Nat × String))
  | slotSelected (playerId : Nat) (slotNum : Nat) (hostId : Nat)
      (players : List (Nat × Nat)) (readyStates : List (Nat × Bool))
      (playerNames : List (Nat × String))
  | nameUpdated (playerId : Nat) (name : String) (playerNames : List (Nat × String))
  | playerReady (playerId : Nat) (isReady : Bool) (allReady : Bool)
      (readyStates : List (Nat × Bool))
  | gameStart
  | opponentDeploymentUpdate (playerId : Nat) (piecesPlaced : Nat) (board : String)
  | opponentSetupComplete (playerId : Nat)
  | bothPlayersReady
  | move (roomId : String) (payload : String)
  | gameEnd (roomId : String) (payload : String)
  | playerLeft (playerId : Nat) (hostId : Nat) (players : List (Nat × Nat))
      (readyStates : List (Nat × Bool)) (playerNames : List (Nat × String))
deriving Repr, DecidableEq

/-- Result of running one message handler: the new registry, private
replies to the requesting connection, deliveries to room occupants
(recipient player id paired with the message), scheduled room-deletion
timers (room id, absolute fire time), and whether
`broadcastRoomListUpdate` was invoked. -/
structure HResult where
  rooms : Registry
  senderMsgs : List OutMsg := []
  roomMsgs : List (Nat × OutMsg) := []
  timers : List (String × Nat) := []
  lobbyUpdate : Bool := false
deriving Repr, DecidableEq

/-- JavaScript `playerId !== excludePlayerId` where `excludePlayerId` may be
`null` (modelled as `none`, which excludes nobody). -/
def notExcluded (pid : Nat) (ex : Option Nat) : Bool :=
  match ex with
  | none => true
  | some e => pid != e

/-- `broadcastToRoom(roomId, message, excludePlayerId)`: deliver to every
client of the room whose id differs from the exclusion and whose socket is
open; no room means no deliveries. -/
def broadcastToRoom (rooms : Registry) (roomId : String) (message : OutMsg)
    (excludePlayerId : Option Nat) : List (Nat × OutMsg) :=
  match alookup roomId rooms with
  | none => []
  | some room =>
    (room.clients.filter (fun p => notExcluded p.1 excludePlayerId && p.2.isOpen)).map
      (fun p => (p.1, message))

/-- The `while (existingIds.includes(playerId)) playerId++` loop, with
explicit fuel (the loop always terminates within `existing.length + 1`
iterations). -/
def firstUnusedFrom (existing : List Nat) : Nat → Nat → Nat
  | k, 0 => k
  | k, fuel + 1 => if existing.contains k then firstUnusedFrom existing (k + 1) fuel else k

/-- Smallest positive player id not currently used as a client key. -/
def nextPlayerId (existing : List Nat) : Nat :=
  firstUnusedFrom existing 1 (existing.length + 1)

/-- `Math.min(...l)` for a non-empty list of player ids. -/
def listMin : List Nat → Nat
  | [] => 0
  | x :: xs => xs.foldl Nat.min x

/-- `handleCreateRoom`: initialize a fresh room under the generated id
(the source performs no collision check against live rooms), seat the
creator as player 1 and host, reply `roomCreated`, refresh the lobby. -/
def handleCreateRoom (ws : Conn) (roomType : String) (genId : String) (now : Nat)
    (rooms : Registry) : Conn × HResult :=
  let playerId := 1
  let ws' : Conn := { ws with roomId := some genId, playerId := some playerId, isAlive := true }
  let room : Room :=
    { roomType := roomType, players := [], clients := [(playerId, ws')],
      readyStates := [], setupComplete := [], playerNames := [],
      gameStarted := false, lastActivity := now, hostId := playerId }
  (ws', { rooms := setKey genId room rooms,
          senderMsgs := [OutMsg.roomCreated genId roomType playerId playerId
            room.players room.readyStates room.playerNames],
          lobbyUpdate := true })

/-- The reconnection guard of `handleJoin`:
`ws.playerId && ws.roomId === roomId && room.clients.has(ws.playerId)`
(a player id of 0 would be falsy in JavaScript). -/
def reconnectGuard (ws : Conn) (roomId : String) (room : Room) : Bool :=
  match ws.playerId with
  | none => false
  | some pid => pid != 0 && (ws.roomId == some roomId) && (alookup pid room.clients).isSome

/-- `handleJoin`: unknown room replies a private error; a tracked
reconnection resends the snapshot privately and stops; otherwise the
smallest unused positive player id is assigned (no capacity check exists
in the source), the connection registered, the snapshot sent to the
joiner and `playerJoined` broadcast to the others. -/
def handleJoin (ws : Conn) (roomId : String) (now : Nat) (rooms : Registry) :
    Conn × HResult :=
  match alookup roomId rooms with
  | none => (ws, { rooms := rooms, senderMsgs := [OutMsg.error "Room not found"] })
  | some room0 =>
    let room : Room := { room0 with lastActivity := now }
    if reconnectGuard ws roomId room then
      (ws, { rooms := setKey roomId room rooms,
             senderMsgs := [OutMsg.roomJoined roomId (ws.playerId.getD 0) room.hostId
               room.players room.readyStates room.roomType room.playerNames room.gameStarted] })
    else
      let playerId := nextPlayerId (room.clients.map (fun p => p.1))
      let ws' : Conn := { ws with roomId := some roomId, playerId := some playerId, isAlive := true }
      let room' : Room := { room with clients := setKey playerId ws' room.clients }
      let rooms' := setKey roomId room' rooms
      (ws', { rooms := rooms',
              senderMsgs := [OutMsg.roomJoined roomId playerId room.hostId
                room.players room.readyStates room.roomType room.playerNames room.gameStarted],
              roomMsgs := broadcastToRoom rooms' roomId
                (OutMsg.playerJoined playerId room.hostId room.players room.readyStates
                  room.playerNames) (some playerId),
              lobbyUpdate := true })

/-- `handleSelectSlot`: re-selecting one's own slot toggles it off (seat
and readiness removed); a slot held by someone else replies a private
error; otherwise the seat is assigned and readiness reset, and in the
non-error paths the updated maps are broadcast room-wide.  The source
never checks that `playerId` is a tracked client of the room. -/
def handleSelectSlot (roomId : String) (playerId : Nat) (slotNum : Nat) (now : Nat)
    (rooms : Registry) : HResult :=
  match alookup roomId rooms with
  | none => { rooms := rooms }
  | some room =>
    if alookup playerId room.players == some slotNum then
      let room' : Room := { room with players := delKey playerId room.players,
                                      readyStates := delKey playerId room.readyStates }
      let rooms' := setKey roomId room' rooms
      { rooms := rooms',
        roomMsgs := broadcastToRoom rooms' roomId
          (OutMsg.slotSelected playerId slotNum room'.hostId room'.players room'.readyStates
            room'.playerNames) none,
        lobbyUpdate := true }
    else if room.players.any (fun p => p.2 == slotNum) then
      { rooms := rooms, senderMsgs := [OutMsg.error "Slot already taken"] }
    else
      let rs1 := if (alookup playerId room.players).getD 0 != 0
        then delKey playerId room.readyStates else room.readyStates
      let room' : Room := { room with lastActivity := now,
                                      players := setKey playerId slotNum room.players,
                                      readyStates := setKey playerId false rs1 }
      let rooms' := setKey roomId room' rooms
      { rooms := rooms',
        roomMsgs := broadcastToRoom rooms' roomId
          (OutMsg.slotSelected playerId slotNum room'.hostId room'.players room'.readyStates
            room'.playerNames) none,
        lobbyUpdate := true }

/-- `handleUpdateName`: store the display name and broadcast it. -/
def handleUpdateName (roomId : String) (playerId : Nat) (name : String) (now : Nat)
    (rooms : Registry) : HResult :=
  match alookup roomId rooms with
  | none => { rooms := rooms }
  | some room =>
    let room' : Room := { room with lastActivity := now,
                                    playerNames := setKey playerId name room.playerNames }
    let rooms' := setKey roomId room' rooms
    { rooms := rooms',
      roomMsgs := broadcastToRoom rooms' roomId
        (OutMsg.nameUpdated playerId name room'.playerNames) none }

/-- First player id occupying the given slot, in insertion order:
`Object.keys(room.players).find(pid => room.players[pid] === slot)`. -/
def slotPlayer (players : List (Nat × Nat)) (slot : Nat) : Option Nat :=
  (players.find? (fun p => p.2 == slot)).map (fun p => p.1)

/-- The `allReady` computation of `handleToggleReady`: the source has an
if/else on the room type whose two branches are textually identical, both
gating on the occupants of slots 1 and 2 only. -/
def computeAllReady (room : Room) : Bool :=
  if room.roomType == "3player" then
    match slotPlayer room.players 1, slotPlayer room.players 2 with
    | some p1, some p2 =>
      (alookup p1 room.readyStates).getD false && (alookup p2 room.readyStates).getD false
    | _, _ => false
  else
    match slotPlayer room.players 1, slotPlayer room.players 2 with
    | some p1, some p2 =>
      (alookup p1 room.readyStates).getD false && (alookup p2 room.readyStates).getD false
    | _, _ => false

/-- `handleToggleReady`: a player with no slot (or an unknown room) is
ignored; otherwise the readiness flag is stored and
`{playerId, isReady, allReady, readyStates}` broadcast room-wide. -/
def handleToggleReady (roomId : String) (playerId : Nat) (isReady : Bool) (now : Nat)
    (rooms : Registry) : HResult :=
  match alookup roomId rooms with
  | none => { rooms := rooms }
  | some room =>
    if (alookup playerId room.players).getD 0 == 0 then { rooms := rooms }
    else
      let room' : Room := { room with lastActivity := now,
                                      readyStates := setKey playerId isReady room.readyStates }
      let rooms' := setKey roomId room' rooms
      { rooms := rooms',
        roomMsgs := broadcastToRoom rooms' roomId
          (OutMsg.playerReady playerId isReady (computeAllReady room') room'.readyStates) none }

/-- `handleStartGame`: stamp `gameStarted` and broadcast `gameStart`. -/
def handleStartGame (roomId : String) (rooms : Registry) : HResult :=
  match alookup roomId rooms with
  | none => { rooms := rooms }
  | some room =>
    let room' : Room := { room with gameStarted := true }
    let rooms' := setKey roomId room' rooms
    { rooms := rooms',
      roomMsgs := broadcastToRoom rooms' roomId OutMsg.gameStart none,
      lobbyUpdate := true }

/-- `handleDeploymentUpdate`: relay the opaque deployment payload to every
occupant except the sender. -/
def handleDeploymentUpdate (roomId : String) (playerId : Nat) (piecesPlaced : Nat)
    (board : String) (now : Nat) (rooms : Registry) : HResult :=
  match alookup roomId rooms with
  | none => { rooms := rooms }
  | some room =>
    let room' : Room := { room with lastActivity := now }
    let rooms' := setKey roomId room' rooms
    { rooms := rooms',
      roomMsgs := broadcastToRoom rooms' roomId
        (OutMsg.opponentDeploymentUpdate playerId piecesPlaced board) (some playerId) }

/-- The `bothReady` computation of `handleSetupComplete`; as with
readiness, the two room-type branches of the source are identical and
gate on the occupants of slots 1 and 2 only. -/
def computeBothReady (room : Room) : Bool :=
  if room.roomType == "3player" then
    match slotPlayer room.players 1, slotPlayer room.players 2 with
    | some p1, some p2 =>
      (alookup p1 room.setupComplete).getD false && (alookup p2 room.setupComplete).getD false
    | _, _ => false
  else
    match slotPlayer room.players 1, slotPlayer room.players 2 with
    | some p1, some p2 =>
      (alookup p1 room.setupComplete).getD false && (alookup p2 room.setupComplete).getD false
    | _, _ => false

/-- `handleSetupComplete`: set the player's flag, broadcast
`opponentSetupComplete` to the others, and whenever both slot occupants'
flags are true (there is no fired-once guard) broadcast
`bothPlayersReady` room-wide. -/
def handleSetupComplete (roomId : String) (playerId : Nat) (now : Nat)
    (rooms : Registry) : HResult :=
  match alookup roomId rooms with
  | none => { rooms := rooms }
  | some room =>
    let room' : Room := { room with lastActivity := now,
                                    setupComplete := setKey playerId true room.setupComplete }
    let rooms' := setKey roomId room' rooms
    let msgs1 := broadcastToRoom rooms' roomId (OutMsg.opponentSetupComplete playerId)
      (some playerId)
    let msgs2 := if computeBothReady room'
      then broadcastToRoom rooms' roomId OutMsg.bothPlayersReady none else []
    { rooms := rooms', roomMsgs := msgs1 ++ msgs2 }

/-- `handleMove`: relay the opaque move payload with no exclusion argument,
so every open occupant of the room receives it. -/
def handleMove (roomId : String) (payload : String) (now : Nat) (rooms : Registry) : HResult :=
  match alookup roomId rooms with
  | none => { rooms := rooms }
  | some room =>
    let room' : Room := { room with lastActivity := now }
    let rooms' := setKey roomId room' rooms
    { rooms := rooms',
      roomMsgs := broadcastToRoom rooms' roomId (OutMsg.move roomId payload) none }

/-- The `setTimeout` delay of `handleGameEnd`, in milliseconds. -/
def gameEndGraceDelay : Nat := 5000

/-- `handleGameEnd`: broadcast `gameEnd` to the room (a no-op if the room
is absent) and unconditionally schedule deletion of the room id after the
fixed grace delay. -/
def handleGameEnd (roomId : String) (payload : String) (now : Nat)
    (rooms : Registry) : HResult :=
  { rooms := rooms,
    roomMsgs := broadcastToRoom rooms roomId (OutMsg.gameEnd roomId payload) none,
    timers := [(roomId, now + gameEndGraceDelay)] }

/-- The body of a `handleGameEnd` timer: `rooms.delete(roomId)`,
unconditional and idempotent. -/
def fireRoomDeletion (roomId : String) (rooms : Registry) : Registry :=
  delKey roomId rooms

/-- `handleDisconnect`: for a connection holding an identity, remove the
player's seat, client entry, readiness, name and setup flag; if the host
left and clients remain, move `hostId` to the smallest remaining id;
broadcast `playerLeft`; delete the room if its client map became empty. -/
def handleDisconnect (ws : Conn) (now : Nat) (rooms : Registry) : HResult :=
  match ws.roomId, ws.playerId with
  | some roomId, some playerId =>
    if roomId == "" || playerId == 0 then { rooms := rooms }
    else
      match alookup roomId rooms with
      | none => { rooms := rooms }
      | some room =>
        let room1 : Room := { room with
          players := delKey playerId room.players,
          clients := delKey playerId room.clients,
          readyStates := delKey playerId room.readyStates,
          playerNames := delKey playerId room.playerNames,
          setupComplete := delKey playerId room.setupComplete,
          lastActivity := now }
        let room2 : Room :=
          if room.hostId == playerId then
            let remaining := room1.clients.map (fun p => p.1)
            if remaining.length > 0 then { room1 with hostId := listMin remaining } else room1
          else room1
        let rooms1 := setKey roomId room2 rooms
        let msgs := broadcastToRoom rooms1 roomId
          (OutMsg.playerLeft playerId room2.hostId room2.players room2.readyStates
            room2.playerNames) none
        let rooms2 := if room2.clients.isEmpty then delKey roomId rooms1 else rooms1
        { rooms := rooms2, roomMsgs := msgs, lobbyUpdate := true }
  | _, _ => { rooms := rooms }

/-- The idle-sweep threshold: thirty minutes in milliseconds. -/
def sweepThreshold : Nat := 30 * 60 * 1000

/-- The periodic cleanup interval body: a falsy `lastActivity` is reset to
`now`, then every room that is both stale and empty is deleted. -/
def sweepRooms (now : Nat) (rooms : Registry) : Registry :=
  (rooms.map (fun p => if p.2.lastActivity == 0 then (p.1, { p.2 with lastActivity := now }) else p)).filter
    (fun p => !(decide (now - p.2.lastActivity > sweepThreshold) && p.2.clients.isEmpty))

/-- One atomic registry transition: a message handler run to completion
(the reference model is single threaded), a scheduled deletion firing, or
an idle sweep. -/
inductive Step where
  | createRoom (ws : Conn) (roomType genId : String) (now : Nat)
  | join (ws : Conn) (roomId : String) (now : Nat)
  | selectSlot (roomId : String) (playerId slotNum now : Nat)
  | updateName (roomId : String) (playerId : Nat) (name : String) (now : Nat)
  | toggleReady (roomId : String) (playerId : Nat) (isReady : Bool) (now : Nat)
  | startGame (roomId : String)
  | setupComplete (roomId : String) (playerId now : Nat)
  | deploymentUpdate (roomId : String) (playerId piecesPlaced : Nat) (board : String) (now : Nat)
  | move (roomId payload : String) (now : Nat)
  | gameEnd (roomId payload : String) (now : Nat)
  | disconnect (ws : Conn) (now : Nat)
  | fireDeletion (roomId : String)
  | sweep (now : Nat)

/-- The registry after one transition. -/
def applyStep (s : Step) (rooms : Registry) : Registry :=
  match s with
  | .createRoom ws roomType genId now => (handleCreateRoom ws roomType genId now rooms).2.rooms
  | .join ws roomId now => (handleJoin ws roomId now rooms).2.rooms
  | .selectSlot roomId playerId slotNum now =>
      (handleSelectSlot roomId playerId slotNum now rooms).rooms
  | .updateName roomId playerId name now => (handleUpdateName roomId playerId name now rooms).rooms
  | .toggleReady roomId playerId isReady now =>
      (handleToggleReady roomId playerId isReady now rooms).rooms
  | .startGame roomId => (handleStartGame roomId rooms).rooms
  | .setupComplete roomId playerId now => (handleSetupComplete roomId playerId now rooms).rooms
  | .deploymentUpdate roomId playerId piecesPlaced board now =>
      (handleDeploymentUpdate roomId playerId piecesPlaced board now rooms).rooms
  | .move roomId payload now => (handleMove roomId payload now rooms).rooms
  | .gameEnd roomId payload now => (handleGameEnd roomId payload now rooms).rooms
  | .disconnect ws now => (handleDisconnect ws now rooms).rooms
  | .fireDeletion roomId => fireRoomDeletion roomId rooms
  | .sweep now => sweepRooms now rooms

/-- Registries reachable from the empty initial registry by transitions. -/
inductive Reachable : Registry → Prop where
  | init : Reachable []
  | step (s : Step) (r : Registry) : Reachable r → Reachable (applyStep s r)

/-- Every registered room has at least one client. -/
def NoEmptyRooms (rooms : Registry) : Prop := ∀ p ∈ rooms, p.2.clients ≠ []

/-! Association-list lemmas. -/

theorem mem_setKey {κ α : Type} [DecidableEq κ] {k : κ} {v : α} {l : List (κ × α)} {p : κ × α}
    (h : p ∈ setKey k v l) : p = (k, v) ∨ p ∈ l := by
  induction l with
  | nil =>
    simp only [setKey, List.mem_singleton] at h
    exact Or.inl h
  | cons q rest ih =>
    obtain ⟨k', v'⟩ := q
    simp only [setKey] at h
    split at h
    · rcases List.mem_cons.mp h with h1 | h1
      · exact Or.inl h1
      · exact Or.inr (List.mem_cons_of_mem _ h1)
    · rcases List.mem_cons.mp h with h1 | h1
      · exact Or.inr (h1 ▸ List.mem_cons_self _ _)
      · rcases ih h1 with h2 | h2
        · exact Or.inl h2
        · exact Or.inr (List.mem_cons_of_mem _ h2)

theorem setKey_ne_nil {κ α : Type} [DecidableEq κ] (k : κ) (v : α) (l : List (κ × α)) :
    setKey k v l ≠ [] := by
  cases l with
  | nil => simp [setKey]
  | cons q rest =>
    obtain ⟨k', v'⟩ := q
    simp only [setKey]
    split <;> simp

theorem alookup_setKey_self {κ α : Type} [DecidableEq κ] (k : κ) (v : α) (l : List (κ × α)) :
    alookup k (setKey k v l) = some v := by
  induction l with
  | nil => simp [setKey, alookup]
  | cons q rest ih =>
    obtain ⟨k', v'⟩ := q
    simp only [setKey]
    split
    · simp [alookup]
    · next hne => simp only [alookup, if_neg hne]; exact ih

theorem alookup_setKey_ne {κ α : Type} [DecidableEq κ] {k k2 : κ} (v : α) (l : List (κ × α))
    (h : k2 ≠ k) : alookup k2 (setKey k v l) = alookup k2 l := by
  have hne : ¬ k = k2 := fun h2 => h h2.symm
  induction l with
  | nil => simp only [setKey, alookup, if_neg hne]
  | cons q rest ih =>
    obtain ⟨k', v'⟩ := q
    simp only [setKey]
    split
    · next heq =>
      subst heq
      simp only [alookup, if_neg hne]
    · simp only [alookup]
      split
      · rfl
      · exact ih

theorem mem_delKey {κ α : Type} [DecidableEq κ] {k : κ} {l : List (κ × α)} {p : κ × α}
    (h : p ∈ delKey k l) : p.1 ≠ k ∧ p ∈ l := by
  induction l with
  | nil => simp [delKey] at h
  | cons q rest ih =>
    obtain ⟨k', v'⟩ := q
    simp only [delKey] at h
    split at h
    · exact ⟨(ih h).1, List.mem_cons_of_mem _ (ih h).2⟩
    · next hne =>
      rcases List.mem_cons.mp h with h1 | h1
      · exact ⟨h1 ▸ hne, h1 ▸ List.mem_cons_self _ _⟩
      · exact ⟨(ih h1).1, List.mem_cons_of_mem _ (ih h1).2⟩

theorem alookup_delKey_self {κ α : Type} [DecidableEq κ] (k : κ) (l : List (κ × α)) :
    alookup k (delKey k l) = none := by
  induction l with
  | nil => simp [delKey, alookup]
  | cons q rest ih =>
    obtain ⟨k', v'⟩ := q
    simp only [delKey]
    split
    · exact ih
    · next hne => simp only [alookup, if_neg hne]; exact ih

theorem alookup_delKey_ne {κ α : Type} [DecidableEq κ] {k k2 : κ} (l : List (κ × α))
    (h : k2 ≠ k) : alookup k2 (delKey k l) = alookup k2 l := by
  have hne : ¬ k = k2 := fun h2 => h h2.symm
  induction l with
  | nil => simp [delKey]
  | cons q rest ih =>
    obtain ⟨k', v'⟩ := q
    simp only [delKey]
    split
    · next heq =>
      subst heq
      simp only [alookup, if_neg hne]
      exact ih
    · simp only [alookup]
      split
      · rfl
      · exact ih

theorem alookup_mem {κ α : Type} [DecidableEq κ] {k : κ} {v : α} {l : List (κ × α)}
    (h : alookup k l = some v) : (k, v) ∈ l := by
  induction l with
  | nil => simp [alookup] at h
  | cons q rest ih =>
    obtain ⟨k', v'⟩ := q
    simp only [alookup] at h
    split at h
    · next heq => cases h; exact heq ▸ List.mem_cons_self _ _
    · exact List.mem_cons_of_mem _ (ih h)

/-! Minimum-of-list lemmas, for the host-migration `Math.min`. -/

theorem foldl_min_le_init (l : List Nat) (a : Nat) : l.foldl Nat.min a ≤ a := by
  induction l generalizing a with
  | nil => exact Nat.le_refl a
  | cons x xs ih =>
    exact Nat.le_trans (ih (Nat.min a x)) (Nat.min_le_left a x)

theorem nat_min_left {a b : Nat} (h : a ≤ b) : Nat.min a b = a := by
  show min a b = a
  omega

theorem nat_min_right {a b : Nat} (h : b ≤ a) : Nat.min a b = b := by
  show min a b = b
  omega

theorem foldl_min_mem (l : List Nat) (a : Nat) :
    l.foldl Nat.min a = a ∨ l.foldl Nat.min a ∈ l := by
  induction l generalizing a with
  | nil => exact Or.inl rfl
  | cons x xs ih =>
    rcases ih (Nat.min a x) with h | h
    · rcases Nat.le_total a x with hax | hxa
      · left
        rw [List.foldl_cons, h, nat_min_left hax]
      · right
        rw [List.foldl_cons, h, nat_min_right hxa]
        exact List.mem_cons_self _ _
    · right
      rw [List.foldl_cons]
      exact List.mem_cons_of_mem _ h

theorem foldl_min_le_mem (l : List Nat) : ∀ (a q : Nat), q ∈ l → l.foldl Nat.min a ≤ q := by
  induction l with
  | nil => intro a q h; cases h
  | cons x xs ih =>
    intro a q h
    rcases List.mem_cons.mp h with rfl | h1
    · rw [List.foldl_cons]
      exact Nat.le_trans (foldl_min_le_init xs (Nat.min a q)) (Nat.min_le_right a q)
    · rw [List.foldl_cons]
      exact ih _ q h1

theorem listMin_mem {l : List Nat} (h : l ≠ []) : listMin l ∈ l := by
  cases l with
  | nil => exact absurd rfl h
  | cons x xs =>
    rcases foldl_min_mem xs x with h1 | h1
    · rw [listMin, h1]; exact List.mem_cons_self _ _
    · rw [listMin]; exact List.mem_cons_of_mem _ h1

theorem listMin_le {l : List Nat} {q : Nat} (h : q ∈ l) : listMin l ≤ q := by
  cases l with
  | nil => cases h
  | cons x xs =>
    rcases List.mem_cons.mp h with rfl | h1
    · rw [listMin]; exact foldl_min_le_init xs q
    · rw [listMin]; exact foldl_min_le_mem xs x q h1

/-! Broadcast lemmas. -/

theorem broadcast_msg_eq {rooms : Registry} {roomId : String} {message : OutMsg}
    {ex : Option Nat} {q : Nat} {m : OutMsg}
    (h : (q, m) ∈ broadcastToRoom rooms roomId message ex) : m = message := by
  unfold broadcastToRoom at h
  cases hl : alookup roomId rooms with
  | none => rw [hl] at h; cases h
  | some room =>
    rw [hl] at h
    obtain ⟨p, _, heq⟩ := List.mem_map.mp h
    exact (congrArg Prod.snd heq).symm

theorem broadcast_mem_intro {rooms : Registry} {roomId : String} {message : OutMsg}
    {ex : Option Nat} {room : Room} {q : Nat} {c : Conn}
    (hl : alookup roomId rooms = some room) (hc : (q, c) ∈ room.clients)
    (hopen : c.isOpen = true) (hex : notExcluded q ex = true) :
    (q, message) ∈ broadcastToRoom rooms roomId message ex := by
  unfold broadcastToRoom
  rw [hl]
  exact List.mem_map.mpr ⟨(q, c), List.mem_filter.mpr ⟨hc, by simp [hex, hopen]⟩, rfl⟩

theorem broadcast_no_exclude {rooms : Registry} {roomId : String} {message : OutMsg}
    {room : Room} (hl : alookup roomId rooms = some room) :
    broadcastToRoom rooms roomId message none =
      (room.clients.filter (fun p => p.2.isOpen)).map (fun p => (p.1, message)) := by
  unfold broadcastToRoom
  rw [hl]
  have hfun : (fun (p : Nat × Conn) => notExcluded p.1 none && p.2.isOpen) =
      fun (p : Nat × Conn) => p.2.isOpen := by
    funext p
    rfl
  rw [hfun]

/-! Preservation of the no-empty-room invariant by every transition. -/

theorem ne_nil_of_isEmpty_false {α : Type} {l : List α} (h : l.isEmpty = false) : l ≠ [] := by
  cases l with
  | nil => simp [List.isEmpty] at h
  | cons x xs => simp

theorem noEmpty_setKey {rooms : Registry} {roomId : String} {room : Room}
    (h : NoEmptyRooms rooms) (hc : room.clients ≠ []) :
    NoEmptyRooms (setKey roomId room rooms) := by
  intro p hp
  rcases mem_setKey hp with rfl | hp2
  · exact hc
  · exact h p hp2

theorem noEmpty_of_lookup {rooms : Registry} {roomId : String} {room : Room}
    (h : NoEmptyRooms rooms) (hl : alookup roomId rooms = some room) : room.clients ≠ [] :=
  h (roomId, room) (alookup_mem hl)

theorem noEmpty_setKeep {rooms : Registry} {roomId rid2 : String} {room room2 : Room}
    (h : NoEmptyRooms rooms) (hl : alookup rid2 rooms = some room)
    (hc : room2.clients = room.clients) :
    NoEmptyRooms (setKey roomId room2 rooms) :=
  noEmpty_setKey h (hc ▸ noEmpty_of_lookup h hl)

theorem noEmpty_delKey {rooms : Registry} (roomId : String) (h : NoEmptyRooms rooms) :
    NoEmptyRooms (delKey roomId rooms) := by
  intro p hp
  exact h p (mem_delKey hp).2

theorem noEmpty_delKey_setKey {rooms : Registry} {roomId : String} {room : Room}
    (h : NoEmptyRooms rooms) : NoEmptyRooms (delKey roomId (setKey roomId room rooms)) := by
  intro p hp
  obtain ⟨hne, hmem⟩ := mem_delKey hp
  rcases mem_setKey hmem with rfl | hmem2
  · exact absurd rfl hne
  · exact h p hmem2

theorem noEmpty_handleCreateRoom (ws : Conn) (roomType genId : String) (now : Nat)
    {rooms : Registry} (h : NoEmptyRooms rooms) :
    NoEmptyRooms (handleCreateRoom ws roomType genId now rooms).2.rooms :=
  noEmpty_setKey h (by simp)

theorem noEmpty_handleJoin (ws : Conn) (roomId : String) (now : Nat)
    {rooms : Registry} (h : NoEmptyRooms rooms) :
    NoEmptyRooms (handleJoin ws roomId now rooms).2.rooms := by
  cases hl : alookup roomId rooms with
  | none => simp only [handleJoin, hl]; exact h
  | some room0 =>
    simp only [handleJoin, hl]
    split
    · exact noEmpty_setKeep h hl rfl
    · exact noEmpty_setKey h (setKey_ne_nil _ _ _)

theorem noEmpty_handleSelectSlot (roomId : String) (playerId slotNum now : Nat)
    {rooms : Registry} (h : NoEmptyRooms rooms) :
    NoEmptyRooms (handleSelectSlot roomId playerId slotNum now rooms).rooms := by
  cases hl : alookup roomId rooms with
  | none => simp only [handleSelectSlot, hl]; exact h
  | some room =>
    simp only [handleSelectSlot, hl]
    split
    · exact noEmpty_setKeep h hl rfl
    · split
      · exact h
      · exact noEmpty_setKeep h hl rfl

theorem noEmpty_handleUpdateName (roomId : String) (playerId : Nat) (name : String) (now : Nat)
    {rooms : Registry} (h : NoEmptyRooms rooms) :
    NoEmptyRooms (handleUpdateName roomId playerId name now rooms).rooms := by
  cases hl : alookup roomId rooms with
  | none => simp only [handleUpdateName, hl]; exact h
  | some room =>
    simp only [handleUpdateName, hl]
    exact noEmpty_setKeep h hl rfl

theorem noEmpty_handleToggleReady (roomId : String) (playerId : Nat) (isReady : Bool) (now : Nat)
    {rooms : Registry} (h : NoEmptyRooms rooms) :
    NoEmptyRooms (handleToggleReady roomId playerId isReady now rooms).rooms := by
  cases hl : alookup roomId rooms with
  | none => simp only [handleToggleReady, hl]; exact h
  | some room =>
    simp only [handleToggleReady, hl]
    split
    · exact h
    · exact noEmpty_setKeep h hl rfl

theorem noEmpty_handleStartGame (roomId : String) {rooms : Registry} (h : NoEmptyRooms rooms) :
    NoEmptyRooms (handleStartGame roomId rooms).rooms := by
  cases hl : alookup roomId rooms with
  | none => simp only [handleStartGame, hl]; exact h
  | some room =>
    simp only [handleStartGame, hl]
    exact noEmpty_setKeep h hl rfl

theorem noEmpty_handleSetupComplete (roomId : String) (playerId now : Nat)
    {rooms : Registry} (h : NoEmptyRooms rooms) :
    NoEmptyRooms (handleSetupComplete roomId playerId now rooms).rooms := by
  cases hl : alookup roomId rooms with
  | none => simp only [handleSetupComplete, hl]; exact h
  | some room =>
    simp only [handleSetupComplete, hl]
    exact noEmpty_setKeep h hl rfl

theorem noEmpty_handleDeploymentUpdate (roomId : String) (playerId piecesPlaced : Nat)
    (board : String) (now : Nat) {rooms : Registry} (h : NoEmptyRooms rooms) :
    NoEmptyRooms (handleDeploymentUpdate roomId playerId piecesPlaced board now rooms).rooms := by
  cases hl : alookup roomId rooms with
  | none => simp only [handleDeploymentUpdate, hl]; exact h
  | some room =>
    simp only [handleDeploymentUpdate, hl]
    exact noEmpty_setKeep h hl rfl

theorem noEmpty_handleMove (roomId payload : String) (now : Nat)
    {rooms : Registry} (h : NoEmptyRooms rooms) :
    NoEmptyRooms (handleMove roomId payload now rooms).rooms := by
  cases hl : alookup roomId rooms with
  | none => simp only [handleMove, hl]; exact h
  | some room =>
    simp only [handleMove, hl]
    exact noEmpty_setKeep h hl rfl

theorem noEmpty_handleGameEnd (roomId payload : String) (now : Nat)
    {rooms : Registry} (h : NoEmptyRooms rooms) :
    NoEmptyRooms (handleGameEnd roomId payload now rooms).rooms := h

theorem noEmpty_disc_core {rooms : Registry} {roomId : String} {room2 : Room}
    (h : NoEmptyRooms rooms) :
    NoEmptyRooms (if room2.clients.isEmpty then delKey roomId (setKey roomId room2 rooms)
      else setKey roomId room2 rooms) := by
  split
  · exact noEmpty_delKey_setKey h
  · next hne =>
    exact noEmpty_setKey h (ne_nil_of_isEmpty_false (Bool.not_eq_true _ ▸ hne))

theorem noEmpty_handleDisconnect (ws : Conn) (now : Nat)
    {rooms : Registry} (h : NoEmptyRooms rooms) :
    NoEmptyRooms (handleDisconnect ws now rooms).rooms := by
  cases hr : ws.roomId with
  | none => simp only [handleDisconnect, hr]; exact h
  | some roomId =>
    cases hp : ws.playerId with
    | none => simp only [handleDisconnect, hr, hp]; exact h
    | some playerId =>
      simp only [handleDisconnect, hr, hp]
      split
      · exact h
      · cases hl : alookup roomId rooms with
        | none => simp only [hl]; exact h
        | some room =>
          simp only [hl]
          exact noEmpty_disc_core h

theorem noEmpty_sweepRooms (now : Nat) {rooms : Registry} (h : NoEmptyRooms rooms) :
    NoEmptyRooms (sweepRooms now rooms) := by
  intro p hp
  unfold sweepRooms at hp
  have hp2 := List.mem_of_mem_filter hp
  obtain ⟨q, hq, heq⟩ := List.mem_map.mp hp2
  have hcq : q.2.clients ≠ [] := h q hq
  split at heq
  · rw [← heq]; exact hcq
  · rw [← heq]; exact hcq

theorem noEmpty_applyStep (s : Step) {rooms : Registry} (h : NoEmptyRooms rooms) :
    NoEmptyRooms (applyStep s rooms) := by
  cases s with
  | createRoom ws roomType genId now => exact noEmpty_handleCreateRoom ws roomType genId now h
  | join ws roomId now => exact noEmpty_handleJoin ws roomId now h
  | selectSlot roomId playerId slotNum now =>
    exact noEmpty_handleSelectSlot roomId playerId slotNum now h
  | updateName roomId playerId name now => exact noEmpty_handleUpdateName roomId playerId name now h
  | toggleReady roomId playerId isReady now =>
    exact noEmpty_handleToggleReady roomId playerId isReady now h
  | startGame roomId => exact noEmpty_handleStartGame roomId h
  | setupComplete roomId playerId now => exact noEmpty_handleSetupComplete roomId playerId now h
  | deploymentUpdate roomId playerId piecesPlaced board now =>
    exact noEmpty_handleDeploymentUpdate roomId playerId piecesPlaced board now h
  | move roomId payload now => exact noEmpty_handleMove roomId payload now h
  | gameEnd roomId payload now => exact noEmpty_handleGameEnd roomId payload now h
  | disconnect ws now => exact noEmpty_handleDisconnect ws now h
  | fireDeletion roomId => exact noEmpty_delKey roomId h
  | sweep now => exact noEmpty_sweepRooms now h

/-! Concrete fixtures used by counterexamples and witnesses. -/

/-- A freshly accepted connection with no identity attached. -/
def wsFresh : Conn := {}

/-- An open connection tracked as player `pid` of room `rid`. -/
def connIn (rid : String) (pid : Nat) : Conn :=
  { roomId := some rid, playerId := some pid }

/-- A live three-seat room registered under id CLASH1. -/
def roomLive : Room :=
  { roomType := "3player", players := [(1, 1)], clients := [(1, connIn "CLASH1" 1)],
    readyStates := [(1, true)], setupComplete := [], playerNames := [(1, "ann")],
    gameStarted := true, lastActivity := 40, hostId := 1 }

/-- A two-seat room at its admission capacity of two connections. -/
def roomFull2p : Room :=
  { roomType := "2player", players := [(1, 1), (2, 2)],
    clients := [(1, connIn "FULL2P" 1), (2, connIn "FULL2P" 2)],
    readyStates := [], setupComplete := [], playerNames := [],
    gameStarted := false, lastActivity := 0, hostId := 1 }

/-- A started two-seat room MV with both occupants connected and open. -/
def roomMoveCx : Room :=
  { roomType := "2player", players := [(1, 1), (2, 2)],
    clients := [(1, connIn "MV" 1), (2, connIn "MV" 2)],
    readyStates := [(1, true), (2, true)], setupComplete := [], playerNames := [],
    gameStarted := true, lastActivity := 0, hostId := 1 }

/-! Claims. -/

/-- Claim C7: in every reachable registry state no registered room has an
empty connections map; in particular the disconnect transition that
removes a room's last connection deletes the room within the same atomic
step, so no later lookup can observe an empty registered room. -/
theorem c7_reachable_no_empty_rooms (r : Registry) (h : Reachable r) : NoEmptyRooms r := by
  induction h with
  | init => intro p hp; cases hp
  | step s r hr ih => exact noEmpty_applyStep s ih

/-- Witness for C7 at a concrete reachable state. -/
theorem c7_witness :
    NoEmptyRooms (applyStep (Step.createRoom wsFresh "2player" "AB12CD" 0) []) :=
  c7_reachable_no_empty_rooms _ (Reachable.step _ _ Reachable.init)

/-- Claim C3 counterexample: with the registry holding a live room under
CLASH1 and the id generator yielding CLASH1 again, create does not
regenerate: it returns CLASH1 and replaces the live room's state with the
fresh room. -/
theorem c3_counterexample :
    (handleCreateRoom wsFresh "2player" "CLASH1" 50 [("CLASH1", roomLive)]).2.senderMsgs =
      [OutMsg.roomCreated "CLASH1" "2player" 1 1 [] [] []] ∧
    alookup "CLASH1"
        (handleCreateRoom wsFresh "2player" "CLASH1" 50 [("CLASH1", roomLive)]).2.rooms =
      some { roomType := "2player", players := [],
             clients := [(1, { roomId := some "CLASH1", playerId := some 1, isAlive := true, isOpen := true })],
             readyStates := [], setupComplete := [], playerNames := [],
             gameStarted := false, lastActivity := 50, hostId := 1 } := by
  exact ⟨rfl, rfl⟩

/-- Claim C3 amended: create installs the fresh room under the generated id
unconditionally — there is no collision check — so a generated id equal to
a live room's id overwrites that room. -/
theorem c3_amended (ws : Conn) (roomType genId : String) (now : Nat) (rooms : Registry) :
    alookup genId (handleCreateRoom ws roomType genId now rooms).2.rooms =
      some { roomType := roomType, players := [],
             clients := [(1, { ws with roomId := some genId, playerId := some 1, isAlive := true })],
             readyStates := [], setupComplete := [], playerNames := [],
             gameStarted := false, lastActivity := now, hostId := 1 } := by
  simp only [handleCreateRoom]
  exact alookup_setKey_self _ _ _

/-- Claim C2 counterexample: a move in room MV is delivered to both
occupants — whichever of them sent it receives its own move back, so the
relay does not exclude the sender. -/
theorem c2_counterexample :
    (handleMove "MV" "m1" 7 [("MV", roomMoveCx)]).roomMsgs =
      [(1, OutMsg.move "MV" "m1"), (2, OutMsg.move "MV" "m1")] := by
  exact rfl

/-- Claim C2 amended: the move relay applies no sender exclusion; the move
broadcast is delivered to every occupant of the room whose connection is
open, the sender included. -/
theorem c2_amended (roomId payload : String) (now : Nat) (rooms : Registry) (room : Room)
    (hroom : alookup roomId rooms = some room) :
    (handleMove roomId payload now rooms).roomMsgs =
      (room.clients.filter (fun p => p.2.isOpen)).map
        (fun p => (p.1, OutMsg.move roomId payload)) := by
  simp only [handleMove, hroom]
  rw [broadcast_no_exclude (alookup_setKey_self _ _ _)]

/-- Witness for the amended C2 at a concrete room. -/
theorem c2_witness :
    (handleMove "MV" "m1" 7 [("MV", roomMoveCx)]).roomMsgs =
      (roomMoveCx.clients.filter (fun p => p.2.isOpen)).map
        (fun p => (p.1, OutMsg.move "MV" "m1")) :=
  c2_amended "MV" "m1" 7 [("MV", roomMoveCx)] roomMoveCx rfl

/-- Claim C9: gameEnd broadcasts the end event to every open occupant
immediately, schedules deletion of the room id at exactly the fixed grace
delay after the handling time, and the scheduled deletion removes the room
id from the registry regardless of the registry state reached by any
intervening activity. -/
theorem c9_game_end_teardown (roomId payload : String) (now : Nat) (rooms : Registry)
    (room : Room) (hroom : alookup roomId rooms = some room) :
    (handleGameEnd roomId payload now rooms).roomMsgs =
      (room.clients.filter (fun p => p.2.isOpen)).map
        (fun p => (p.1, OutMsg.gameEnd roomId payload)) ∧
    (handleGameEnd roomId payload now rooms).timers = [(roomId, now + gameEndGraceDelay)] ∧
    ∀ r : Registry, alookup roomId (applyStep (Step.fireDeletion roomId) r) = none := by
  refine ⟨?_, rfl, ?_⟩
  · simp only [handleGameEnd]
    exact broadcast_no_exclude hroom
  · intro r
    exact alookup_delKey_self roomId r

/-- Witness for C9 at a concrete room. -/
theorem c9_witness :
    (handleGameEnd "MV" "over" 7 [("MV", roomMoveCx)]).roomMsgs =
      (roomMoveCx.clients.filter (fun p => p.2.isOpen)).map
        (fun p => (p.1, OutMsg.gameEnd "MV" "over")) ∧
    (handleGameEnd "MV" "over" 7 [("MV", roomMoveCx)]).timers =
      [("MV", 7 + gameEndGraceDelay)] ∧
    ∀ r : Registry, alookup "MV" (applyStep (Step.fireDeletion "MV") r) = none :=
  c9_game_end_teardown "MV" "over" 7 [("MV", roomMoveCx)] roomMoveCx rfl

/-- Claim C1 counterexample: room FULL2P is a two-seat room already holding
two connections, yet a join from a fresh connection is admitted as player
3 — the reply is roomJoined, not an error, and the connections map gains a
third entry. -/
theorem c1_counterexample :
    (handleJoin wsFresh "FULL2P" 9 [("FULL2P", roomFull2p)]).2.senderMsgs =
      [OutMsg.roomJoined "FULL2P" 3 1 [(1, 1), (2, 2)] [] "2player" [] false] ∧
    (alookup "FULL2P" (handleJoin wsFresh "FULL2P" 9 [("FULL2P", roomFull2p)]).2.rooms).map
      (fun r => r.clients.map (fun p => p.1)) = some [1, 2, 3] := by
  exact ⟨rfl, rfl⟩

/-- Claim C1 amended: join performs no capacity check at all; a join
request to an existing room whose connections map already holds the room
type's admission capacity, from a connection that is not a tracked
reconnection, still succeeds — the smallest unused positive player id is
registered in the connections map and roomJoined (never RoomFull) is sent
back to the requester. -/
theorem c1_amended (ws : Conn) (roomId : String) (now : Nat) (rooms : Registry) (room : Room)
    (hroom : alookup roomId rooms = some room)
    (hcap : room.clients.length = if room.roomType == "3player" then 3 else 2)
    (hguard : reconnectGuard ws roomId { room with lastActivity := now } = false) :
    (handleJoin ws roomId now rooms).2.senderMsgs =
      [OutMsg.roomJoined roomId (nextPlayerId (room.clients.map (fun p => p.1))) room.hostId
        room.players room.readyStates room.roomType room.playerNames room.gameStarted] ∧
    (alookup roomId (handleJoin ws roomId now rooms).2.rooms).map (fun r => r.clients) =
      some (setKey (nextPlayerId (room.clients.map (fun p => p.1)))
        { ws with roomId := some roomId,
                  playerId := some (nextPlayerId (room.clients.map (fun p => p.1))),
                  isAlive := true }
        room.clients) := by
  simp only [handleJoin, hroom, hguard, Bool.false_eq_true, if_false]
  refine ⟨trivial, ?_⟩
  rw [alookup_setKey_self]
  rfl

/-- Witness for the amended C1 at the full two-seat room. -/
theorem c1_witness :
    (handleJoin wsFresh "FULL2P" 9 [("FULL2P", roomFull2p)]).2.senderMsgs =
      [OutMsg.roomJoined "FULL2P" (nextPlayerId (roomFull2p.clients.map (fun p => p.1)))
        roomFull2p.hostId roomFull2p.players roomFull2p.readyStates roomFull2p.roomType
        roomFull2p.playerNames roomFull2p.gameStarted] :=
  (c1_amended wsFresh "FULL2P" 9 [("FULL2P", roomFull2p)] roomFull2p rfl (by decide) rfl).1

/-- A room RS whose only tracked connection is player 1 and whose seats
are all free. -/
def roomSolo : Room :=
  { roomType := "2player", players := [], clients := [(1, connIn "RS" 1)],
    readyStates := [], setupComplete := [], playerNames := [],
    gameStarted := false, lastActivity := 0, hostId := 1 }

/-- Claim C4 counterexample: player id 99 is not a tracked connection of
room RS, yet selectSlot assigns it seat 1, creates a readiness entry for
it and broadcasts slotSelected to the room; no error is sent to anyone. -/
theorem c4_counterexample :
    (alookup "RS" (handleSelectSlot "RS" 99 1 4 [("RS", roomSolo)]).rooms).map
      (fun r => (r.players, r.readyStates)) = some ([(99, 1)], [(99, false)]) ∧
    (handleSelectSlot "RS" 99 1 4 [("RS", roomSolo)]).roomMsgs =
      [(1, OutMsg.slotSelected 99 1 1 [(99, 1)] [(99, false)] [])] ∧
    (handleSelectSlot "RS" 99 1 4 [("RS", roomSolo)]).senderMsgs = [] := by
  exact ⟨rfl, rfl, rfl⟩

/-- Claim C4 amended: selectSlot never verifies that the requesting player
id is a tracked connection of the room and no NotJoined error exists; for
an untracked id that does not currently hold the requested seat, when the
seat is free the seat assignment is written, a readiness entry reset to
false is created, and slotSelected is broadcast room-wide, with no error
reply. -/
theorem c4_amended (roomId : String) (playerId slotNum now : Nat) (rooms : Registry)
    (room : Room) (readyStates2 : List (Nat × Bool))
    (hroom : alookup roomId rooms = some room)
    (huntracked : alookup playerId room.clients = none)
    (hnotown : (alookup playerId room.players == some slotNum) = false)
    (hfree : room.players.any (fun p => p.2 == slotNum) = false)
    (hrs : readyStates2 = setKey playerId false
      (if (alookup playerId room.players).getD 0 != 0
       then delKey playerId room.readyStates else room.readyStates)) :
    (alookup roomId (handleSelectSlot roomId playerId slotNum now rooms).rooms).map
      (fun r => alookup playerId r.players) = some (some slotNum) ∧
    (handleSelectSlot roomId playerId slotNum now rooms).senderMsgs = [] ∧
    (handleSelectSlot roomId playerId slotNum now rooms).roomMsgs =
      (room.clients.filter (fun p => p.2.isOpen)).map
        (fun p => (p.1, OutMsg.slotSelected playerId slotNum room.hostId
          (setKey playerId slotNum room.players) readyStates2 room.playerNames)) := by
  subst hrs
  simp only [handleSelectSlot, hroom, hnotown, hfree, Bool.false_eq_true, if_false]
  refine ⟨?_, trivial, ?_⟩
  · rw [alookup_setKey_self]
    exact congrArg some (alookup_setKey_self _ _ _)
  · rw [broadcast_no_exclude (alookup_setKey_self _ _ _)]

/-- Witness for the amended C4: the untracked player 99 takes seat 1. -/
theorem c4_witness :
    (alookup "RS" (handleSelectSlot "RS" 99 1 4 [("RS", roomSolo)]).rooms).map
      (fun r => alookup 99 r.players) = some (some 1) :=
  (c4_amended "RS" 99 1 4 [("RS", roomSolo)] roomSolo
    (setKey 99 false (if (alookup 99 roomSolo.players).getD 0 != 0
      then delKey 99 roomSolo.readyStates else roomSolo.readyStates))
    rfl rfl rfl rfl rfl).1

/-- Setting one flag to true never unsets another recorded true flag. -/
theorem alookup_setKey_true {pid p : Nat} {sc : List (Nat × Bool)}
    (h : alookup p sc = some true) : alookup p (setKey pid true sc) = some true := by
  by_cases hc : p = pid
  · subst hc
    exact alookup_setKey_self p true sc
  · rw [alookup_setKey_ne true sc hc]
    exact h

/-- Sufficient condition for the bothReady gate of handleSetupComplete. -/
theorem computeBothReady_intro (room : Room) (p1 p2 : Nat)
    (h1 : slotPlayer room.players 1 = some p1) (h2 : slotPlayer room.players 2 = some p2)
    (hs1 : alookup p1 room.setupComplete = some true)
    (hs2 : alookup p2 room.setupComplete = some true) :
    computeBothReady room = true := by
  unfold computeBothReady
  split <;> rw [h1, h2] <;> simp [hs1, hs2]

/-- Claim C10: the bothPlayersReady broadcast carries no fired-once guard;
whenever both seat occupants' setup flags are already true before the
call, any further setupComplete message — in particular a third one after
both flags are set — broadcasts bothPlayersReady again to every open
occupant of the room. -/
theorem c10_both_ready_refires (roomId : String) (playerId now : Nat) (rooms : Registry)
    (room : Room) (p1 p2 : Nat)
    (hroom : alookup roomId rooms = some room)
    (h1 : slotPlayer room.players 1 = some p1)
    (h2 : slotPlayer room.players 2 = some p2)
    (hs1 : alookup p1 room.setupComplete = some true)
    (hs2 : alookup p2 room.setupComplete = some true) :
    ∀ q c, (q, c) ∈ room.clients → c.isOpen = true →
      (q, OutMsg.bothPlayersReady) ∈ (handleSetupComplete roomId playerId now rooms).roomMsgs := by
  intro q c hq hopen
  have hboth : computeBothReady
      { room with lastActivity := now,
                  setupComplete := setKey playerId true room.setupComplete } = true :=
    computeBothReady_intro _ p1 p2 h1 h2 (alookup_setKey_true hs1) (alookup_setKey_true hs2)
  simp only [handleSetupComplete, hroom, hboth, if_true]
  refine List.mem_append_right _ ?_
  exact broadcast_mem_intro (alookup_setKey_self _ _ _) hq hopen rfl

/-- A started three-seat room S3 where the two combat-seat occupants have
completed setup and a third seated occupant has not. -/
def roomSetup3 : Room :=
  { roomType := "3player", players := [(1, 1), (2, 2), (3, 3)],
    clients := [(1, connIn "S3" 1), (2, connIn "S3" 2), (3, connIn "S3" 3)],
    readyStates := [(1, true), (2, true)], setupComplete := [(1, true), (2, true)],
    playerNames := [], gameStarted := true, lastActivity := 0, hostId := 1 }

/-- Witness for C10: player 3's setupComplete, sent after both combat-seat
occupants already completed setup, delivers bothPlayersReady to player 1
again. -/
theorem c10_witness :
    (1, OutMsg.bothPlayersReady) ∈ (handleSetupComplete "S3" 3 8 [("S3", roomSetup3)]).roomMsgs :=
  c10_both_ready_refires "S3" 3 8 [("S3", roomSetup3)] roomSetup3 1 2
    rfl rfl rfl rfl rfl 1 (connIn "S3" 1) (by decide) rfl

/-- Claim C8: a join from a connection that already holds a tracked
identity for that exact room is an idempotent reconfirmation — the current
room snapshot is resent to that connection only, the connection keeps its
player id, the room's connections map is unchanged and no playerJoined
broadcast (and no lobby refresh) is emitted. -/
theorem c8_rejoin_idempotent (ws : Conn) (roomId : String) (now : Nat) (rooms : Registry)
    (room : Room) (pid : Nat)
    (hwp : ws.playerId = some pid) (hpid : (pid == 0) = false)
    (hwr : ws.roomId = some roomId)
    (hroom : alookup roomId rooms = some room)
    (htracked : (alookup pid room.clients).isSome = true) :
    (handleJoin ws roomId now rooms).1 = ws ∧
    (handleJoin ws roomId now rooms).2.senderMsgs =
      [OutMsg.roomJoined roomId pid room.hostId room.players room.readyStates room.roomType
        room.playerNames room.gameStarted] ∧
    (handleJoin ws roomId now rooms).2.roomMsgs = [] ∧
    (handleJoin ws roomId now rooms).2.lobbyUpdate = false ∧
    (alookup roomId (handleJoin ws roomId now rooms).2.rooms).map (fun r => r.clients) =
      some room.clients := by
  have hguard : reconnectGuard ws roomId { room with lastActivity := now } = true := by
    simp only [reconnectGuard, hwp, hwr, htracked, bne, hpid]
    simp
  simp only [handleJoin, hroom, hguard, if_true]
  refine ⟨trivial, ?_, trivial, trivial, ?_⟩
  · rw [hwp]
    rfl
  · rw [alookup_setKey_self]
    rfl

/-- Witness for C8: player 1 of room S3 re-joins with its tracked identity. -/
theorem c8_witness :
    (handleJoin (connIn "S3" 1) "S3" 9 [("S3", roomSetup3)]).2.roomMsgs = [] ∧
    (handleJoin (connIn "S3" 1) "S3" 9 [("S3", roomSetup3)]).2.lobbyUpdate = false :=
  ⟨(c8_rejoin_idempotent (connIn "S3" 1) "S3" 9 [("S3", roomSetup3)] roomSetup3 1
      rfl rfl rfl rfl rfl).2.2.1,
   (c8_rejoin_idempotent (connIn "S3" 1) "S3" 9 [("S3", roomSetup3)] roomSetup3 1
      rfl rfl rfl rfl rfl).2.2.2.1⟩

/-- A defaulted boolean lookup is true exactly when the entry is stored true. -/
theorem getD_false_eq_true_iff (o : Option Bool) : (o.getD false = true) ↔ o = some true := by
  cases o <;> simp

/-- The allReady gate holds exactly when both combat seats are occupied and
both occupants' stored readiness flags are true. -/
theorem computeAllReady_iff (room : Room) :
    computeAllReady room = true ↔
      (∃ p1, slotPlayer room.players 1 = some p1 ∧ alookup p1 room.readyStates = some true) ∧
      (∃ p2, slotPlayer room.players 2 = some p2 ∧ alookup p2 room.readyStates = some true) := by
  unfold computeAllReady
  split
  all_goals
    cases h1 : slotPlayer room.players 1 with
    | none => simp [h1]
    | some p1 =>
      cases h2 : slotPlayer room.players 2 with
      | none => simp [h1, h2]
      | some p2 => simp [h1, h2, Bool.and_eq_true, getD_false_eq_true_iff]

/-- The allReady computation never reads the room type: the source's two
branches are identical. -/
theorem computeAllReady_roomType (room : Room) (t : String) :
    computeAllReady { room with roomType := t } = computeAllReady room := by
  unfold computeAllReady
  rw [ite_self, ite_self]

/-- A combat-seat occupant whose stored readiness is false forces the gate
to false. -/
theorem computeAllReady_false_of_flip (room : Room) (pid : Nat)
    (h : slotPlayer room.players 1 = some pid ∨ slotPlayer room.players 2 = some pid)
    (hlook : alookup pid room.readyStates = some false) :
    computeAllReady room = false := by
  unfold computeAllReady
  split
  all_goals
    rcases h with h | h
    · rw [h]
      cases h2 : slotPlayer room.players 2 with
      | none => rfl
      | some p2 => simp [hlook]
    · rw [h]
      cases h1 : slotPlayer room.players 1 with
      | none => rfl
      | some p1 => simp [hlook]

/-- Claim C5: every playerReady broadcast of a handled toggle carries the
allReady value computed from the updated room; that value is true iff some
player occupies seat 1, some player occupies seat 2 and both occupants'
stored readiness flags are true; the computation is identical for every
room type (the third seat never participates); and a toggle to false by a
seat-1 or seat-2 occupant makes the broadcast allReady false. -/
theorem c5_all_ready_gate (roomId : String) (playerId : Nat) (isReady : Bool) (now : Nat)
    (rooms : Registry) (room room' : Room)
    (hroom : alookup roomId rooms = some room)
    (hseated : ((alookup playerId room.players).getD 0 == 0) = false)
    (hr' : room' = { room with lastActivity := now,
                               readyStates := setKey playerId isReady room.readyStates }) :
    (∀ q m, (q, m) ∈ (handleToggleReady roomId playerId isReady now rooms).roomMsgs →
      m = OutMsg.playerReady playerId isReady (computeAllReady room') room'.readyStates) ∧
    (computeAllReady room' = true ↔
      (∃ p1, slotPlayer room'.players 1 = some p1 ∧ alookup p1 room'.readyStates = some true) ∧
      (∃ p2, slotPlayer room'.players 2 = some p2 ∧ alookup p2 room'.readyStates = some true)) ∧
    (∀ t : String, computeAllReady { room' with roomType := t } = computeAllReady room') ∧
    (isReady = false →
      (slotPlayer room'.players 1 = some playerId ∨ slotPlayer room'.players 2 = some playerId) →
      computeAllReady room' = false) := by
  subst hr'
  refine ⟨?_, computeAllReady_iff _, fun t => computeAllReady_roomType _ t, ?_⟩
  · intro q m hm
    simp only [handleToggleReady, hroom, hseated, Bool.false_eq_true, if_false] at hm
    exact broadcast_msg_eq hm
  · intro hflip hseat
    apply computeAllReady_false_of_flip _ playerId hseat
    subst hflip
    exact alookup_setKey_self _ _ _

/-- A two-seat room RD with both seats taken and only player 1 ready. -/
def roomReady : Room :=
  { roomType := "2player", players := [(1, 1), (2, 2)],
    clients := [(1, connIn "RD" 1), (2, connIn "RD" 2)],
    readyStates := [(1, true)], setupComplete := [], playerNames := [],
    gameStarted := false, lastActivity := 0, hostId := 1 }

/-- The state of room RD after player 2's toggle to ready at time 5. -/
def roomReadyAfter : Room :=
  { roomReady with lastActivity := 5, readyStates := setKey 2 true roomReady.readyStates }

/-- Witness for C5 after player 2 of room RD toggles ready. -/
theorem c5_witness :
    computeAllReady roomReadyAfter = true ↔
      (∃ p1, slotPlayer roomReadyAfter.players 1 = some p1 ∧
        alookup p1 roomReadyAfter.readyStates = some true) ∧
      (∃ p2, slotPlayer roomReadyAfter.players 2 = some p2 ∧
        alookup p2 roomReadyAfter.readyStates = some true) :=
  (c5_all_ready_gate "RD" 2 true 5 [("RD", roomReady)] roomReady roomReadyAfter rfl rfl rfl).2.1

/-- A list whose image under a map is nonempty is itself nonempty. -/
theorem isEmpty_false_of_map_ne_nil {α β : Type} {l : List α} {f : α → β}
    (h : l.map f ≠ []) : l.isEmpty = false := by
  cases l with
  | nil => exact absurd rfl h
  | cons x xs => rfl

/-- Claim C6: when the player holding hostId disconnects and at least one
connection remains, hostId is reassigned to the numerically smallest
remaining connected player id (it is a remaining id and is below every
remaining id); when a non-host disconnects, any surviving room keeps its
hostId. -/
theorem c6_host_migration (ws : Conn) (now : Nat) (rooms : Registry) (roomId : String)
    (playerId : Nat) (room : Room) (remaining : List Nat)
    (hwr : ws.roomId = some roomId) (hwp : ws.playerId = some playerId)
    (hrid : (roomId == "") = false) (hpid : (playerId == 0) = false)
    (hroom : alookup roomId rooms = some room)
    (hrem : remaining = (delKey playerId room.clients).map (fun p => p.1)) :
    (room.hostId = playerId → remaining ≠ [] →
      (alookup roomId (handleDisconnect ws now rooms).rooms).map (fun r => r.hostId) =
        some (listMin remaining) ∧
      listMin remaining ∈ remaining ∧ ∀ q ∈ remaining, listMin remaining ≤ q) ∧
    (room.hostId ≠ playerId →
      ∀ room2, alookup roomId (handleDisconnect ws now rooms).rooms = some room2 →
        room2.hostId = room.hostId) := by
  subst hrem
  simp only [handleDisconnect, hwr, hwp, hrid, hpid, Bool.or_self, Bool.false_eq_true,
    if_false, hroom]
  constructor
  · intro hhost hne
    have hbeq : (room.hostId == playerId) = true := beq_iff_eq.mpr hhost
    have hlen : ((delKey playerId room.clients).map (fun p => p.1)).length > 0 :=
      List.length_pos.mpr hne
    have hie : (delKey playerId room.clients).isEmpty = false :=
      isEmpty_false_of_map_ne_nil hne
    simp only [hbeq, if_true, hlen, hie, Bool.false_eq_true, if_false]
    rw [alookup_setKey_self]
    exact ⟨rfl, listMin_mem hne, fun q hq => listMin_le hq⟩
  · intro hnh room2 hlook2
    have hbeq : (room.hostId == playerId) = false := by
      simp [hnh]
    simp only [hbeq, Bool.false_eq_true, if_false] at hlook2
    by_cases hie : (delKey playerId room.clients).isEmpty = true
    · simp only [hie, if_true] at hlook2
      rw [alookup_delKey_self] at hlook2
      cases hlook2
    · simp only [hie, Bool.false_eq_true, if_false] at hlook2
      rw [alookup_setKey_self] at hlook2
      have := Option.some.inj hlook2
      rw [← this]

/-- A room HM hosted by player 1 with three connected players. -/
def roomHost : Room :=
  { roomType := "3player", players := [(1, 1), (2, 2), (3, 3)],
    clients := [(1, connIn "HM" 1), (2, connIn "HM" 2), (3, connIn "HM" 3)],
    readyStates := [], setupComplete := [], playerNames := [],
    gameStarted := false, lastActivity := 0, hostId := 1 }

/-- Witness for C6: the host of room HM disconnects and hostId moves to
the smallest remaining connected player id. -/
theorem c6_witness :
    (alookup "HM" (handleDisconnect (connIn "HM" 1) 6 [("HM", roomHost)]).rooms).map
      (fun r => r.hostId) =
      some (listMin ((delKey 1 roomHost.clients).map (fun p => p.1))) ∧
    listMin ((delKey 1 roomHost.clients).map (fun p => p.1)) ∈
      ((delKey 1 roomHost.clients).map (fun p => p.1)) ∧
    ∀ q ∈ ((delKey 1 roomHost.clients).map (fun p => p.1)),
      listMin ((delKey 1 roomHost.clients).map (fun p => p.1)) ≤ q :=
  (c6_host_migration (connIn "HM" 1) 6 [("HM", roomHost)] "HM" 1 roomHost
    ((delKey 1 roomHost.clients).map (fun p => p.1)) rfl rfl rfl rfl rfl rfl).1 rfl (by decide)
